import Mathlib

/- Shallow embedding of the analytics core of the Aws-Cost-Optimization
   repository: the functions of src/data_processor.py (class DataProcessor)
   and src/advanced_analytics.py (class AdvancedAnalytics) that the claims
   refer to.  Observation records carry exact rational cost and usage
   values; calendar dates are modelled as natural numbers (one unit per
   day, so adding a timedelta of i days is adding i).  Floating point
   square roots (np.sqrt, np.std, the pearson denominator) and the normal
   quantile stats.norm.ppf have no rational value, so each embedded
   function that needs one receives the square root routine rsqrt, or the
   precomputed critical value z, as an explicit parameter; no claim below
   depends on their numeric values.  Option types model values the source
   leaves as IEEE NaN, with none standing for NaN. -/

/-- One raw cost observation, a row of the input DataFrame. -/
structure Obs where
  date : Nat
  service : String
  region : String
  cost : ℚ
  usage : ℚ
  deriving DecidableEq

/-- Insert x into a list that is already ordered by le. -/
def insertLE {α : Type} (le : α → α → Bool) (x : α) : List α → List α
  | [] => [x]
  | y :: ys => if le x y then x :: y :: ys else y :: insertLE le x ys

/-- Insertion sort by the boolean relation le. -/
def sortLE {α : Type} (le : α → α → Bool) : List α → List α
  | [] => []
  | x :: xs => insertLE le x (sortLE le xs)

/-- Distinct observation dates in ascending order: the group keys produced
by cost_data.groupby("date") (pandas sorts group keys). -/
def datesOf (data : List Obs) : List Nat :=
  sortLE (fun a b => decide (a ≤ b)) ((data.map (fun o => o.date)).dedup)

/-- Total cost of the observations falling on day d. -/
def sumCostOn (data : List Obs) (d : Nat) : ℚ :=
  ((data.filter (fun o => decide (o.date = d))).map (fun o => o.cost)).sum

/-- Total usage of the observations falling on day d. -/
def sumUsageOn (data : List Obs) (d : Nat) : ℚ :=
  ((data.filter (fun o => decide (o.date = d))).map (fun o => o.usage)).sum

/-- The daily cost series cost_data.groupby("date")["cost"].sum(),
ordered by date. -/
def dailyCosts (data : List Obs) : List ℚ :=
  (datesOf data).map (sumCostOn data)

/-- The daily usage series cost_data.groupby("date")["usage"].sum(). -/
def dailyUsage (data : List Obs) : List ℚ :=
  (datesOf data).map (sumUsageOn data)

/-- Arithmetic mean of a series; the source never takes a mean of an
empty series on the paths embedded here (rational division by the zero
length yields 0 in that unreachable case). -/
def meanQ (s : List ℚ) : ℚ := s.sum / s.length

/-- Population variance, the square of np.std with ddof 0 (also the square
of the denominator inside scipy stats.zscore). -/
def popVarQ (s : List ℚ) : ℚ :=
  ((s.map (fun x => (x - meanQ s) ^ 2)).sum) / s.length

/-- Sample standard deviation, pandas Series.std() with ddof 1; pandas
yields NaN (here none) on fewer than two values.  rsqrt is the runtime
square root routine. -/
def sampleStdOpt (rsqrt : ℚ → ℚ) (s : List ℚ) : Option ℚ :=
  if s.length < 2 then none
  else some (rsqrt (((s.map (fun x => (x - meanQ s) ^ 2)).sum) / ((s.length : ℚ) - 1)))

/-- Series.pct_change().dropna(): day over day relative change, the
leading NaN dropped.  pandas produces inf or NaN when a previous value is
0; the rational embedding leaves x / 0 = 0 there, and the theorems below
only evaluate this on series whose change list is empty. -/
def pctChange (s : List ℚ) : List ℚ :=
  (s.zip s.tail).map (fun pc => (pc.2 - pc.1) / pc.1)

/-- np.percentile with the default linear interpolation: the value at
fractional position (n - 1) * p / 100 of the sorted series. -/
def percentile (s : List ℚ) (p : ℚ) : ℚ :=
  let sorted := sortLE (fun a b => decide (a ≤ b)) s
  let n := sorted.length
  let h : ℚ := ((n : ℚ) - 1) * p / 100
  let lo : Nat := (⌊h⌋).toNat
  let xlo := sorted.getD lo 0
  let xhi := sorted.getD (lo + 1) xlo
  xlo + (h - (lo : ℚ)) * (xhi - xlo)

/-- Minimum of a nonempty series (0 on the unreachable empty case). -/
def minQ : List ℚ → ℚ
  | [] => 0
  | x :: xs => xs.foldl (fun a b => min a b) x

/-- Maximum of a nonempty series (0 on the unreachable empty case). -/
def maxQ : List ℚ → ℚ
  | [] => 0
  | x :: xs => xs.foldl (fun a b => max a b) x

/-- Result dictionary of DataProcessor.calculate_trends.  The
average_daily_cost field is an Option because pandas rolling(window).mean()
leaves NaN when fewer than window points exist. -/
structure TrendResult where
  trend : String
  percentage_change : ℚ
  current_daily_cost : ℚ
  average_daily_cost : Option ℚ
  min_daily_cost : ℚ
  max_daily_cost : ℚ
  deriving DecidableEq

/-- Last entry of daily_costs.rolling(window=w).mean(): pandas uses
min_periods equal to the window, so the last entry is the mean of the
final w values when the series has at least w of them and NaN (none)
otherwise.  pandas rejects a window of 0, which the blanket except of the
caller would turn into the empty result, modelled by none as well. -/
def rollingMeanLast (s : List ℚ) (w : Nat) : Option ℚ :=
  if w = 0 ∨ s.length < w then none
  else some (((s.drop (s.length - w)).sum) / (w : ℚ))

/-- DataProcessor.calculate_trends: an empty input returns the empty
dictionary (none); otherwise the trend summary of the daily cost series. -/
def calculate_trends (data : List Obs) (window : Nat) : Option TrendResult :=
  if data = [] then none
  else
    let s := dailyCosts data
    some
      { trend := if s.getLastD 0 > s.headD 0 then "increasing" else "decreasing"
        percentage_change :=
          if s.headD 0 ≠ 0 then (s.getLastD 0 - s.headD 0) / s.headD 0 * 100 else 0
        current_daily_cost := s.getLastD 0
        average_daily_cost := rollingMeanLast s window
        min_daily_cost := minQ s
        max_daily_cost := maxQ s }

/-- One anomaly record returned by
AdvancedAnalytics.detect_cost_anomalies_advanced. -/
structure Anomaly where
  date : Nat
  cost : ℚ
  method : String
  severity : String
  deriving DecidableEq

/-- The method independent payload of an anomaly record. -/
def anomalyData (a : Anomaly) : Nat × ℚ × String :=
  (a.date, a.cost, a.severity)

/-- Indices flagged by the zscore branch: scipy stats.zscore computes
(x - mean) / std with the population std; a point is flagged when the
absolute z score strictly exceeds 3.  The comparison is encoded without a
square root as (x - mean) ^ 2 > 9 * variance, equivalent for a positive
std; a zero std makes every z score NaN and NaN > 3 is false, hence the
variance ≠ 0 conjunct. -/
def zscoreIdx (s : List ℚ) : List Nat :=
  let v := popVarQ s
  (List.range s.length).filter
    (fun i => decide (v ≠ 0 ∧ (s.getD i 0 - meanQ s) ^ 2 > 9 * v))

/-- Indices flagged by the iqr branch: outside
[Q1 - 1.5 * IQR, Q3 + 1.5 * IQR]. -/
def iqrIdx (s : List ℚ) : List Nat :=
  let q1 := percentile s 25
  let q3 := percentile s 75
  let iqr := q3 - q1
  let lb := q1 - 3 / 2 * iqr
  let ub := q3 + 3 / 2 * iqr
  (List.range s.length).filter (fun i => decide (s.getD i 0 < lb ∨ ub < s.getD i 0))

/-- Index selection of detect_cost_anomalies_advanced.  Any method other
than zscore and iqr goes to the isolation forest branch; there,
sklearnAvailable models whether the sklearn import succeeds, isoFlag
abstracts IsolationForest(contamination, random_state=42).fit_predict
(whether each point of the series is predicted as an outlier), and an
ImportError falls back to the iqr computation. -/
def anomalyIdx (sklearnAvailable : Bool) (isoFlag : ℚ → List ℚ → Nat → Bool)
    (contamination : ℚ) (method : String) (s : List ℚ) : List Nat :=
  if method = "zscore" then zscoreIdx s
  else if method = "iqr" then iqrIdx s
  else if sklearnAvailable then
    (List.range s.length).filter (isoFlag contamination s)
  else iqrIdx s

/-- AdvancedAnalytics.detect_cost_anomalies_advanced: every flagged index
of the daily cost series becomes a record carrying the requested method
string and a severity of high when the cost exceeds 1.5 times the series
mean. -/
def detect_cost_anomalies_advanced (sklearnAvailable : Bool)
    (isoFlag : ℚ → List ℚ → Nat → Bool) (contamination : ℚ)
    (method : String) (data : List Obs) : List Anomaly :=
  if data = [] then []
  else
    let dates := datesOf data
    let s := dailyCosts data
    (anomalyIdx sklearnAvailable isoFlag contamination method s).map
      (fun i =>
        { date := dates.getD i 0
          cost := s.getD i 0
          method := method
          severity := if s.getD i 0 > meanQ s * (3 / 2) then "high" else "medium" })

/-- Result dictionary of AdvancedAnalytics.calculate_cost_elasticity;
none fields model NaN floats. -/
structure ElasticityResult where
  elasticity : ℚ
  cost_volatility : Option ℚ
  usage_volatility : Option ℚ
  correlation : Option ℚ
  service : String
  deriving DecidableEq

/-- The optional service filter: Python treats None and the empty string
as falsy, leaving the data unfiltered. -/
def serviceFilter (data : List Obs) (service : Option String) : List Obs :=
  match service with
  | some s => if s = "" then data else data.filter (fun o => decide (o.service = s))
  | none => data

/-- The label service or "all" of the result. -/
def serviceLabel (service : Option String) : String :=
  match service with
  | some s => if s = "" then "all" else s
  | none => "all"

/-- pandas Series.corr (pearson) between the two aligned daily series:
NaN (none) on fewer than two points or a constant series, else the
centered product sum over the root of the product of the squared
deviation sums. -/
def corrOpt (rsqrt : ℚ → ℚ) (xs ys : List ℚ) : Option ℚ :=
  if xs.length < 2 then none
  else
    let mx := meanQ xs
    let my := meanQ ys
    let sxx := (xs.map (fun x => (x - mx) ^ 2)).sum
    let syy := (ys.map (fun y => (y - my) ^ 2)).sum
    let sxy := ((xs.zip ys).map (fun p => (p.1 - mx) * (p.2 - my))).sum
    if sxx = 0 ∨ syy = 0 then none
    else some (sxy / (rsqrt sxx * rsqrt syy))

/-- AdvancedAnalytics.calculate_cost_elasticity: empty input or an empty
filtered frame yields the empty dictionary (none); otherwise the ratio of
mean day over day changes, the change volatilities and the pearson
correlation of the daily cost and usage series. -/
def calculate_cost_elasticity (rsqrt : ℚ → ℚ) (data : List Obs)
    (service : Option String) : Option ElasticityResult :=
  if data = [] then none
  else
    let d := serviceFilter data service
    if d = [] then none
    else
      let dc := dailyCosts d
      let du := dailyUsage d
      let cpc := pctChange dc
      let upc := pctChange du
      let el :=
        if cpc ≠ [] ∧ upc ≠ [] then
          if meanQ upc ≠ 0 then meanQ cpc / meanQ upc else 0
        else 0
      some
        { elasticity := el
          cost_volatility := sampleStdOpt rsqrt cpc
          usage_volatility := sampleStdOpt rsqrt upc
          correlation := corrOpt rsqrt dc du
          service := serviceLabel service }

/-- One forecast record of
AdvancedAnalytics.forecast_with_confidence_intervals. -/
structure ForecastEntry where
  date : Nat
  forecasted_cost : ℚ
  lower_bound : ℚ
  upper_bound : ℚ
  confidence : ℚ
  deriving DecidableEq

/-- Slope of the degree one least squares fit of np.polyfit over the
index positions 0, 1, ..., n - 1; this closed form is the unique solution
for two or more samples, the only case on which the source reaches it. -/
def fitSlope (ys : List ℚ) : ℚ :=
  let n : ℚ := ys.length
  let xs := (List.range ys.length).map (fun i => (i : ℚ))
  let sx := xs.sum
  let sy := ys.sum
  let sxx := (xs.map (fun x => x ^ 2)).sum
  let sxy := (((List.range ys.length).zip ys).map (fun iy => (iy.1 : ℚ) * iy.2)).sum
  (n * sxy - sx * sy) / (n * sxx - sx ^ 2)

/-- Intercept of the same least squares fit. -/
def fitIntercept (ys : List ℚ) : ℚ :=
  (ys.sum - fitSlope ys * (((List.range ys.length).map (fun i => (i : ℚ))).sum)) / ys.length

/-- Residuals y - poly(x) of the fit against the observed series. -/
def residualsOf (ys : List ℚ) : List ℚ :=
  ((List.range ys.length).zip ys).map
    (fun iy => iy.2 - (fitIntercept ys + fitSlope ys * (iy.1 : ℚ)))

/-- The margin z_score * residual_std * np.sqrt(1 + 1 / n), with
residual_std the np.std of the residuals; rsqrt stands for the runtime
square root and z for the critical value stats.norm.ppf((1 + c) / 2)
computed by scipy. -/
def margin_of_error (rsqrt : ℚ → ℚ) (z : ℚ) (ys : List ℚ) : ℚ :=
  z * rsqrt (popVarQ (residualsOf ys)) * rsqrt (1 + 1 / (ys.length : ℚ))

/-- AdvancedAnalytics.forecast_with_confidence_intervals: empty input
returns []; with a single sample np.polyfit divides by a zero column norm
while rescaling, the NaN entry makes the least squares call raise
LinAlgError, and the blanket except returns [], modelled by the length
below two branch.  Otherwise one record per future day i in
1, ..., days_ahead, the line evaluated at position n + i - 1, the lower
bound clamped at zero. -/
def forecast_with_confidence_intervals (rsqrt : ℚ → ℚ) (z : ℚ)
    (data : List Obs) (days_ahead : Nat) (confidence : ℚ) : List ForecastEntry :=
  if data = [] then []
  else
    let dates := datesOf data
    let ys := dailyCosts data
    if ys.length < 2 then []
    else
      (List.range days_ahead).map
        (fun j =>
          let i : Nat := j + 1
          let fv := fitIntercept ys + fitSlope ys * ((ys.length : ℚ) + (i : ℚ) - 1)
          let m := margin_of_error rsqrt z ys
          { date := dates.getLastD 0 + i
            forecasted_cost := fv
            lower_bound := max 0 (fv - m)
            upper_bound := fv + m
            confidence := confidence })

/-- One record of AdvancedAnalytics.identify_cost_drivers (the avg_cost
aggregate is computed by the source but not returned).  volatility is the
sample std of the cost values of the rows of the group, NaN (none) for a
single row. -/
structure CostDriver where
  service : String
  region : String
  total_cost : ℚ
  percentage : ℚ
  cumulative_percentage : ℚ
  cost_per_unit : ℚ
  volatility : Option ℚ
  deriving DecidableEq

/-- Distinct (service, region) pairs in ascending order: the group keys of
cost_data.groupby(["service", "region"]). -/
def groupPairs (data : List Obs) : List (String × String) :=
  sortLE
    (fun a b =>
      decide (a.1 < b.1 ∨ (a.1 = b.1 ∧ (a.2 < b.2 ∨ a.2 = b.2))))
    ((data.map (fun o => (o.service, o.region))).dedup)

/-- AdvancedAnalytics.identify_cost_drivers.  The line assigning
cost_per_unit evaluates the Python truth value of a whole pandas Series
in its conditional; with two or more (service, region) groups pandas
raises ValueError (ambiguous truth value of a multi element Series), the
blanket except logs it and returns [] — the two or more groups branch
below.  With exactly one group (a one element Series coerces to bool) the
aggregates are computed, the grand total equals the sum over all rows,
the cumulative sum of the one element percentage column is itself, the
descending sort is trivial, and head(top_n) truncates. -/
def identify_cost_drivers (rsqrt : ℚ → ℚ) (data : List Obs) (top_n : Nat) :
    List CostDriver :=
  if data = [] then []
  else if 2 ≤ (groupPairs data).length then []
  else
    match groupPairs data with
    | [] => []
    | (sv, rg) :: _ =>
      let rows := data.filter (fun o => decide (o.service = sv ∧ o.region = rg))
      let total := (rows.map (fun o => o.cost)).sum
      let usage := (rows.map (fun o => o.usage)).sum
      let grand := (data.map (fun o => o.cost)).sum
      let percentage := if 0 < grand then total / grand * 100 else 0
      let cumulative := percentage
      let cpu := if 0 < usage then total / usage else 0
      List.take top_n
        [{ service := sv
           region := rg
           total_cost := total
           percentage := percentage
           cumulative_percentage := cumulative
           cost_per_unit := cpu
           volatility := sampleStdOpt rsqrt (rows.map (fun o => o.cost)) }]

/-- Result dictionary of AdvancedAnalytics.calculate_roi_for_optimization;
payback_period_months is none when the source would report the None it
substitutes for an infinite payback. -/
structure ROIResult where
  roi_percentage : ℚ
  total_savings : ℚ
  net_benefit : ℚ
  payback_period_months : Option ℚ
  analysis_period_months : Int
  monthly_savings : ℚ
  deriving DecidableEq

/-- AdvancedAnalytics.calculate_roi_for_optimization; current_cost is
accepted and ignored exactly as in the source. -/
def calculate_roi_for_optimization (_current_cost optimization_savings implementation_cost : ℚ)
    (months : Int) : ROIResult :=
  let total_savings := optimization_savings * months
  let net_benefit := total_savings - implementation_cost
  let roi := if 0 < implementation_cost then net_benefit / implementation_cost * 100 else 0
  let payback :=
    if 0 < optimization_savings then some (implementation_cost / optimization_savings)
    else none
  { roi_percentage := roi
    total_savings := total_savings
    net_benefit := net_benefit
    payback_period_months := payback
    analysis_period_months := months
    monthly_savings := optimization_savings }

/-- Pointwise predicate over a returned list, used to state properties of
every returned record without a membership hypothesis. -/
def ListAll {α : Type} (p : α → Prop) : List α → Prop
  | [] => True
  | x :: xs => p x ∧ ListAll p xs

/-- Example input of the trend claims: one observation per day with daily
costs 100, 90, 80. -/
def trendEx : List Obs :=
  [⟨1, "EC2", "us-east-1", 100, 1⟩, ⟨2, "EC2", "us-east-1", 90, 1⟩,
   ⟨3, "EC2", "us-east-1", 80, 1⟩]

/-- Example input with a single observation day. -/
def oneDayData : List Obs := [⟨1, "EC2", "us-east-1", 100, 10⟩]

/-- Example input of the constant series claim: 30 days of cost 100. -/
def constData : List Obs :=
  (List.range 30).map (fun i => ⟨i + 1, "EC2", "us-east-1", 100, 1⟩)

/-- Example input with two (service, region) groups of total costs 700
and 300. -/
def twoGroupData : List Obs :=
  [⟨1, "EC2", "us-east-1", 700, 10⟩, ⟨1, "S3", "us-east-1", 300, 5⟩]

theorem listAll_map {α β : Type} (p : β → Prop) (f : α → β) (h : ∀ x, p (f x)) :
    ∀ l : List α, ListAll p (l.map f)
  | [] => trivial
  | x :: xs => ⟨h x, listAll_map p f h xs⟩

theorem popVarQ_replicate (n : Nat) (c : ℚ) : popVarQ (List.replicate n c) = 0 := by
  rcases n with _ | m
  · simp [popVarQ]
  · have hn : ((m + 1 : Nat) : ℚ) ≠ 0 := Nat.cast_ne_zero.mpr (Nat.succ_ne_zero m)
    have hmean : meanQ (List.replicate (m + 1) c) = c := by
      rw [meanQ, List.sum_replicate, List.length_replicate, nsmul_eq_mul]
      exact mul_div_cancel_left₀ c hn
    unfold popVarQ
    rw [hmean, List.map_replicate]
    simp

theorem popVarQ_const (s : List ℚ) (c : ℚ) (h : ∀ x ∈ s, x = c) : popVarQ s = 0 := by
  rw [List.eq_replicate_of_mem h]
  exact popVarQ_replicate s.length c

/-- C9: on the empty observation set every analysis component returns its
empty result: calculate_trends the empty dictionary, the anomaly
detector, forecaster and driver ranking the empty list, and the
elasticity analyzer the empty dictionary; each function takes its empty
input branch, so no exception path is reached. -/
theorem empty_input_components_empty (rsqrt : ℚ → ℚ) (z c : ℚ) (avail : Bool)
    (isoFlag : ℚ → List ℚ → Nat → Bool) (cont : ℚ) (method : String)
    (w days topn : Nat) (service : Option String) :
    calculate_trends [] w = none ∧
    detect_cost_anomalies_advanced avail isoFlag cont method [] = [] ∧
    forecast_with_confidence_intervals rsqrt z [] days c = [] ∧
    identify_cost_drivers rsqrt [] topn = [] ∧
    calculate_cost_elasticity rsqrt [] service = none :=
  ⟨rfl, rfl, rfl, rfl, rfl⟩

/-- C1 (code bug evidence): on two (service, region) groups with total
costs 700 and 300 the source does not return the two expected driver
records; the truth value test of a two element Series raises ValueError
and the handler returns the empty list. -/
theorem identify_cost_drivers_two_groups_empty :
    identify_cost_drivers (fun q => q) twoGroupData 10 = [] := by
  with_unfolding_all decide

/-- C2: when the grouped daily series has exactly one distinct date the
forecaster returns the empty list (np.polyfit fails on a single sample
and the handler returns []). -/
theorem forecast_single_date_empty (rsqrt : ℚ → ℚ) (z : ℚ) (data : List Obs)
    (days : Nat) (c : ℚ) (h : (datesOf data).length = 1) :
    forecast_with_confidence_intervals rsqrt z data days c = [] := by
  have hd : data ≠ [] := by
    intro he
    subst he
    exact absurd h (by decide)
  have hlen : (dailyCosts data).length = 1 := by
    show ((datesOf data).map (sumCostOn data)).length = 1
    rw [List.length_map]
    exact h
  simp [forecast_with_confidence_intervals, hd, hlen]

/-- C2 witness: a one day observation set produces an empty forecast. -/
theorem forecast_single_date_empty_witness :
    (datesOf oneDayData).length = 1 ∧
    forecast_with_confidence_intervals (fun q => q) 2 oneDayData 30 (95 / 100) = [] :=
  ⟨by decide, forecast_single_date_empty (fun q => q) 2 oneDayData 30 (95 / 100) (by decide)⟩

/-- C5: every returned forecast record uses the single margin
z * residual_std * sqrt(1 + 1 / n) of margin_of_error: the upper bound is
the prediction plus that margin, the lower bound is the prediction minus
it clamped at zero, the margin does not depend on days_ahead, and every
lower bound is nonnegative. -/
theorem forecast_bounds_single_margin (rsqrt : ℚ → ℚ) (z : ℚ) (data : List Obs)
    (days : Nat) (c : ℚ) :
    ListAll
      (fun e =>
        e.upper_bound = e.forecasted_cost + margin_of_error rsqrt z (dailyCosts data) ∧
        e.lower_bound = max 0 (e.forecasted_cost - margin_of_error rsqrt z (dailyCosts data)) ∧
        0 ≤ e.lower_bound)
      (forecast_with_confidence_intervals rsqrt z data days c) := by
  simp only [forecast_with_confidence_intervals]
  split
  · exact trivial
  · split
    · exact trivial
    · exact listAll_map _ _ (fun j => ⟨rfl, rfl, le_max_left 0 _⟩) _

/-- C6: for a nonempty observation set the trend label compares the last
daily value against the first and the percentage change is
(last - first) / first * 100, or 0 for a zero first value. -/
theorem trends_direction_and_change (data : List Obs) (w : Nat) (h : data ≠ []) :
    (calculate_trends data w).map (fun r => r.trend) =
      some (if (dailyCosts data).headD 0 < (dailyCosts data).getLastD 0
            then "increasing" else "decreasing") ∧
    (calculate_trends data w).map (fun r => r.percentage_change) =
      some (if (dailyCosts data).headD 0 ≠ 0
            then ((dailyCosts data).getLastD 0 - (dailyCosts data).headD 0) /
              (dailyCosts data).headD 0 * 100
            else 0) := by
  constructor <;> simp [calculate_trends, h]

/-- C6 witness: on the daily series 100, 90, 80 the trend is decreasing
with percentage change -20. -/
theorem trends_direction_and_change_witness :
    trendEx ≠ [] ∧
    (calculate_trends trendEx 7).map (fun r => r.trend) = some "decreasing" ∧
    (calculate_trends trendEx 7).map (fun r => r.percentage_change) = some (-20) :=
  ⟨by decide,
   ((trends_direction_and_change trendEx 7 (by decide)).1).trans (by with_unfolding_all decide),
   ((trends_direction_and_change trendEx 7 (by decide)).2).trans (by with_unfolding_all decide)⟩

/-- C4 counterexample: on the daily series 100, 90, 80 with the default
window 7 the returned average_daily_cost is the NaN of the incomplete
rolling window (modelled none), not the defined mean of the available
points that the claim requires. -/
theorem trends_short_series_avg_nan :
    (calculate_trends trendEx 7).map (fun r => r.average_daily_cost) = some none := by
  with_unfolding_all decide

/-- C4 (amended): for a nonempty series with fewer points than the
rolling window, calculate_trends returns average_daily_cost as NaN
(none): pandas rolling(window).mean() has no defined last value below
window points. -/
theorem trends_short_window_avg_undefined (data : List Obs) (w : Nat)
    (h1 : data ≠ []) (h2 : (dailyCosts data).length < w) :
    (calculate_trends data w).map (fun r => r.average_daily_cost) = some none := by
  simp [calculate_trends, h1, rollingMeanLast, h2]

/-- C4 witness: the three point series with window 7. -/
theorem trends_short_window_avg_undefined_witness :
    trendEx ≠ [] ∧ (dailyCosts trendEx).length < 7 ∧
    (calculate_trends trendEx 7).map (fun r => r.average_daily_cost) = some none :=
  ⟨by decide, by decide,
   trends_short_window_avg_undefined trendEx 7 (by decide) (by decide)⟩

/-- C3 counterexample: on a one day observation set
calculate_cost_elasticity returns a populated dictionary, not the empty
result the claim requires. -/
theorem elasticity_single_day_not_empty :
    calculate_cost_elasticity (fun q => q) oneDayData none ≠ none := by
  with_unfolding_all decide

/-- C3 (amended): with fewer than 2 distinct dates after the optional
service filter, calculate_cost_elasticity returns a populated result with
elasticity 0 and NaN (none) volatilities and correlation, labelled with
the filtered service or all. -/
theorem elasticity_single_day_fields (rsqrt : ℚ → ℚ) (data : List Obs)
    (service : Option String) (h1 : serviceFilter data service ≠ [])
    (h2 : (datesOf (serviceFilter data service)).length = 1) :
    calculate_cost_elasticity rsqrt data service =
      some { elasticity := 0, cost_volatility := none, usage_volatility := none,
             correlation := none, service := serviceLabel service } := by
  have hd : data ≠ [] := by
    intro he
    subst he
    apply h1
    cases service with
    | none => rfl
    | some s =>
      show (if s = "" then ([] : List Obs) else List.filter _ []) = []
      split <;> rfl
  obtain ⟨a, ha⟩ := List.length_eq_one.mp h2
  have hc : dailyCosts (serviceFilter data service) =
      [sumCostOn (serviceFilter data service) a] := by
    unfold dailyCosts
    rw [ha]
    rfl
  have hu : dailyUsage (serviceFilter data service) =
      [sumUsageOn (serviceFilter data service) a] := by
    unfold dailyUsage
    rw [ha]
    rfl
  simp [calculate_cost_elasticity, hd, h1, hc, hu, pctChange, sampleStdOpt, corrOpt]

/-- C3 witness: the one day observation set without a service filter. -/
theorem elasticity_single_day_fields_witness :
    serviceFilter oneDayData none ≠ [] ∧
    (datesOf (serviceFilter oneDayData none)).length = 1 ∧
    calculate_cost_elasticity (fun q => q) oneDayData none =
      some { elasticity := 0, cost_volatility := none, usage_volatility := none,
             correlation := none, service := "all" } :=
  ⟨by decide, by decide,
   elasticity_single_day_fields (fun q => q) oneDayData none (by decide) (by decide)⟩

/-- C7: when every value of the grouped daily series is the same constant
the population variance is zero, every z score is the NaN of a zero
division, no point satisfies the threshold comparison, and the zscore
detector returns no anomalies. -/
theorem zscore_constant_series_empty (avail : Bool)
    (isoFlag : ℚ → List ℚ → Nat → Bool) (cont : ℚ) (data : List Obs) (c : ℚ)
    (h : ∀ x ∈ dailyCosts data, x = c) :
    detect_cost_anomalies_advanced avail isoFlag cont "zscore" data = [] := by
  by_cases hd : data = []
  · simp [detect_cost_anomalies_advanced, hd]
  · have hv : popVarQ (dailyCosts data) = 0 := popVarQ_const _ c h
    have hz : zscoreIdx (dailyCosts data) = [] := by
      simp [zscoreIdx, hv]
    simp [detect_cost_anomalies_advanced, hd, anomalyIdx, hz]

/-- C7 witness: 30 days of constant cost 100 produce no zscore anomalies. -/
theorem zscore_constant_series_empty_witness :
    (∀ x ∈ dailyCosts constData, x = (100 : ℚ)) ∧
    detect_cost_anomalies_advanced true (fun _ _ _ => false) (1 / 10) "zscore" constData = [] :=
  ⟨by with_unfolding_all decide,
   zscore_constant_series_empty true (fun _ _ _ => false) (1 / 10) constData 100
     (by with_unfolding_all decide)⟩

/-- C8 counterexample: at implementation cost -500 the claimed formula
roi = net_benefit / implementation_cost * 100 fails: the source guard is
strictly positive, so the returned roi_percentage is 0 rather than the
formula value -580. -/
theorem roi_negative_implementation_cost_breaks_formula :
    (calculate_roi_for_optimization 1000 200 (-500) 12).roi_percentage ≠
      (calculate_roi_for_optimization 1000 200 (-500) 12).net_benefit / (-500) * 100 := by
  with_unfolding_all decide

set_option maxRecDepth 10000 in
/-- C8 (amended): total_savings = savings * months and
net_benefit = total_savings - implementation_cost always;
roi_percentage is net_benefit / implementation_cost * 100 only when the
implementation cost is strictly positive and 0 otherwise (so also for
negative cost, not only zero); payback_period_months is
implementation_cost / savings only when savings is strictly positive and
null (none) otherwise; the example savings 200, implementation cost 500,
12 months gives 2400, 1900, 380 and payback 2.5. -/
theorem roi_metrics_formulas (cc s ic : ℚ) (m : Int) :
    (calculate_roi_for_optimization cc s ic m).total_savings = s * m ∧
    (calculate_roi_for_optimization cc s ic m).net_benefit = s * m - ic ∧
    (calculate_roi_for_optimization cc s ic m).roi_percentage =
      (if 0 < ic then (s * m - ic) / ic * 100 else 0) ∧
    (calculate_roi_for_optimization cc s ic m).payback_period_months =
      (if 0 < s then some (ic / s) else none) ∧
    calculate_roi_for_optimization 1000 200 500 12 =
      { roi_percentage := 380, total_savings := 2400, net_benefit := 1900,
        payback_period_months := some (5 / 2), analysis_period_months := 12,
        monthly_savings := 200 } :=
  ⟨rfl, rfl, rfl, rfl, by with_unfolding_all decide⟩

/-- C10: every returned anomaly record carries the method string the
caller requested, and when the isolation forest implementation is
unavailable the fallback produces exactly the iqr records up to that
label, so the substitution is never visible in the returned data. -/
theorem anomaly_method_label (avail avail2 : Bool)
    (isoFlag isoFlag2 : ℚ → List ℚ → Nat → Bool) (cont cont2 : ℚ)
    (method : String) (data : List Obs) :
    ListAll (fun a => a.method = method)
      (detect_cost_anomalies_advanced avail isoFlag cont method data) ∧
    (detect_cost_anomalies_advanced false isoFlag cont "isolation_forest" data).map
        anomalyData =
      (detect_cost_anomalies_advanced avail2 isoFlag2 cont2 "iqr" data).map
        anomalyData := by
  constructor
  · by_cases hd : data = []
    · simp [detect_cost_anomalies_advanced, hd, ListAll]
    · simp only [detect_cost_anomalies_advanced, if_neg hd]
      exact listAll_map (fun a : Anomaly => a.method = method) _ (fun i => rfl) _
  · by_cases hd : data = []
    · simp [detect_cost_anomalies_advanced, hd]
    · have hidx : anomalyIdx false isoFlag cont "isolation_forest" (dailyCosts data) =
          anomalyIdx avail2 isoFlag2 cont2 "iqr" (dailyCosts data) := by
        have hne1 : ("isolation_forest" : String) ≠ "zscore" := by decide
        have hne2 : ("isolation_forest" : String) ≠ "iqr" := by decide
        have hne3 : ("iqr" : String) ≠ "zscore" := by decide
        simp [anomalyIdx, hne1, hne2, hne3]
      simp only [detect_cost_anomalies_advanced, if_neg hd, hidx]
      rw [List.map_map, List.map_map]
      rfl
